import Mathlib

/-!
Verification model of the rackcorp-api-python repository.

The Python sources are shallowly embedded: Python dictionaries holding JSON
scalars become ordered association lists over `JVal`, `None` becomes
`Option.none` (or `JVal.null` on the wire), Python exceptions become
`Except`/`Option` failure values, and functions performing HTTP requests are
parameterised by the response they would receive.  Python dataclass fields are
given the types of their annotations; wire values of a different type than the
annotated one are rejected by the decoder model (Python would store them
unchecked — no property below depends on such inputs).
-/

set_option autoImplicit false

namespace Rackcorp

/-- A JSON scalar value as stored in the record dictionaries of `dns.py`.
`null` models Python `None`. -/
inductive JVal where
  | s (v : String)
  | i (v : Int)
  | null
  deriving DecidableEq, Repr

/-- A Python dict with JSON-scalar values: an ordered association list whose
keys are pairwise distinct by construction. -/
abbrev Dict := List (String × JVal)

/-- Membership-respecting lookup: `d[k]` / `k in d`. -/
def dictGet : Dict → String → Option JVal
  | [], _ => none
  | (k, v) :: rest, key => if k = key then some v else dictGet rest key

/-- Python `key in d`. -/
def containsKey (d : Dict) (k : String) : Bool :=
  (dictGet d k).isSome

/-- `dicthelp.get_first`: return the value of the first listed key present in
the dict (even when that value is null), else the default `None`. -/
def get_first (d : Dict) : List String → JVal
  | [] => JVal.null
  | k :: ks =>
    match dictGet d k with
    | some v => v
    | none => get_first d ks

/-- Python `d.get(k)`: the value when the key is present, else `None`. -/
def pyGet (d : Dict) (k : String) : JVal :=
  (dictGet d k).getD JVal.null

/-- Decode a wire value expected to be a string (required field). -/
def asStr : JVal → Option String
  | .s v => some v
  | _ => none

/-- Decode a wire value expected to be an int (required field). -/
def asInt : JVal → Option Int
  | .i v => some v
  | _ => none

/-- Decode a wire value into an `Optional[str]` field: null maps to unset. -/
def asOptStr : JVal → Option (Option String)
  | .s v => some (some v)
  | .null => some none
  | .i _ => none

/-- Decode a wire value into an `Optional[int]` field: null maps to unset. -/
def asOptInt : JVal → Option (Option Int)
  | .i v => some (some v)
  | .null => some none
  | .s _ => none

/-- Encode an `Optional[str]` field value onto the wire (None becomes null). -/
def jOptStr : Option String → JVal
  | some v => JVal.s v
  | none => JVal.null

/-- Encode an `Optional[int]` field value onto the wire (None becomes null). -/
def jOptInt : Option Int → JVal
  | some v => JVal.i v
  | none => JVal.null

/-- The record type enumeration of `dns.py` (a `StrEnum`). -/
inductive DnsRecordType where
  | A | AHASHED | AAAA | CAA | CNAME | MX | NS | PTR | TXT | SRV
  deriving DecidableEq, Repr

/-- `str(member)` of the `StrEnum`: the member value. -/
def DnsRecordType.toWire : DnsRecordType → String
  | .A => "A"
  | .AHASHED => "AHASHED"
  | .AAAA => "AAAA"
  | .CAA => "CAA"
  | .CNAME => "CNAME"
  | .MX => "MX"
  | .NS => "NS"
  | .PTR => "PTR"
  | .TXT => "TXT"
  | .SRV => "SRV"

/-- `DnsRecordType(s)`: the member whose value is `s`, failing (Python
`ValueError`) on any other string. -/
def DnsRecordType.ofWire (s : String) : Option DnsRecordType :=
  if s = "A" then some .A
  else if s = "AHASHED" then some .AHASHED
  else if s = "AAAA" then some .AAAA
  else if s = "CAA" then some .CAA
  else if s = "CNAME" then some .CNAME
  else if s = "MX" then some .MX
  else if s = "NS" then some .NS
  else if s = "PTR" then some .PTR
  else if s = "TXT" then some .TXT
  else if s = "SRV" then some .SRV
  else none

/-- The `DnsRecord` dataclass of `dns.py`.  `data` is `Option String` because
the auth hook constructs a record whose data is the (possibly missing)
validation token. -/
structure DnsRecord where
  lookup : String
  type : DnsRecordType
  data : Option String
  caa_tag : Option String := none
  caa_flag : Option Int := none
  customer_id : Option Int := none
  domain_id : Option Int := none
  domain_name : Option String := none
  id : Option String := none
  port : Option Int := none
  priority : Option Int := none
  region_id : Option Int := none
  ttl : Option Int := none
  weight : Option Int := none
  deriving DecidableEq, Repr

/-- Python truthiness of an `Optional[int]`: `None` and `0` are falsy. -/
def truthyOptInt : Option Int → Bool
  | none => false
  | some n => decide (n ≠ 0)

/-- Python truthiness of an `Optional[str]`: `None` and the empty string are
falsy. -/
def truthyOptStr : Option String → Bool
  | none => false
  | some v => decide (v ≠ "")

/-- The domain-reference portion of `DnsRecord.to_dict`: Python tests
`if self.domain_id:` / `elif self.domain_name:` by truthiness, and inside the
taken branch the field is known to be `some`, so `getD` reads its payload. -/
def DnsRecord.domainSegment (r : DnsRecord) : Dict :=
  if truthyOptInt r.domain_id then
    [("domainid", JVal.i (r.domain_id.getD 0)),
     ("domainId", JVal.i (r.domain_id.getD 0)),
     ("domainID", JVal.i (r.domain_id.getD 0))]
  else if truthyOptStr r.domain_name then
    [("name", JVal.s (r.domain_name.getD ""))]
  else []

/-- The `opts` dict of `DnsRecord.to_dict`, before the `is not None`
filtering, in source order. -/
def DnsRecord.optsList (r : DnsRecord) : List (String × Option JVal) :=
  [("id", r.id.map JVal.s),
   ("caatag", r.caa_tag.map JVal.s),
   ("caaflag", r.caa_flag.map JVal.i),
   ("customerid", r.customer_id.map JVal.i),
   ("customerId", r.customer_id.map JVal.i),
   ("customerID", r.customer_id.map JVal.i),
   ("port", r.port.map JVal.i),
   ("priority", r.priority.map JVal.i),
   ("regionid", r.region_id.map JVal.i),
   ("regionId", r.region_id.map JVal.i),
   ("regionID", r.region_id.map JVal.i),
   ("ttl", r.ttl.map JVal.i),
   ("weight", r.weight.map JVal.i)]

/-- The loop `for key, value in opts.items(): if value is not None: ...`. -/
def emitOpts : List (String × Option JVal) → Dict
  | [] => []
  | (k, some v) :: rest => (k, v) :: emitOpts rest
  | (_, none) :: rest => emitOpts rest

/-- `DnsRecord.to_dict` of `dns.py`. -/
def DnsRecord.to_dict (r : DnsRecord) : Dict :=
  [("type", JVal.s r.type.toWire),
   ("lookup", JVal.s r.lookup),
   ("data", jOptStr r.data)]
  ++ r.domainSegment
  ++ emitOpts r.optsList

/-- `DnsRecord.from_dict` of `dns.py`.  Failure (`none`) models a Python
`KeyError` on a missing required key, a `ValueError` on an unknown record
type, or a wire value whose type differs from the field annotation. -/
def DnsRecord.from_dict (d : Dict) : Option DnsRecord :=
  (dictGet d ("lookup")).bind fun lookupV =>
  (asStr lookupV).bind fun lookupS =>
  (dictGet d ("type")).bind fun typeV =>
  (asStr typeV).bind fun typeS =>
  (DnsRecordType.ofWire typeS).bind fun ty =>
  (dictGet d ("data")).bind fun dataV =>
  (asOptStr dataV).bind fun dataO =>
  (asOptStr (pyGet d ("caatag"))).bind fun caaT =>
  (asOptInt (pyGet d ("caaflag"))).bind fun caaF =>
  (asOptInt (get_first d ["customerid", "customerId", "customerID"])).bind fun cu =>
  (asOptInt (get_first d ["domainid", "domainId", "domainID"])).bind fun di =>
  (asOptStr (pyGet d ("name"))).bind fun dn =>
  (asOptStr (pyGet d ("id"))).bind fun idv =>
  (asOptInt (pyGet d ("port"))).bind fun po =>
  (asOptInt (pyGet d ("priority"))).bind fun pr =>
  (asOptInt (get_first d ["regionid", "regionId", "regionID"])).bind fun re =>
  (asOptInt (pyGet d ("ttl"))).bind fun tt =>
  (asOptInt (pyGet d ("weight"))).bind fun we =>
  some ⟨lookupS, ty, dataO, caaT, caaF, cu, di, dn, idv, po, pr, re, tt, we⟩

/-! Lookup lemmas for the encoder output. -/

theorem dictGet_append (a b : Dict) (key : String) :
    dictGet (a ++ b) key =
      match dictGet a key with
      | some v => some v
      | none => dictGet b key := by
  induction a with
  | nil => simp [dictGet]
  | cons kv rest ih =>
    obtain ⟨k, v⟩ := kv
    by_cases h : k = key <;> simp [dictGet, h, ih]

/-- First-present-entry lookup over the unfiltered `opts` list: entries whose
value is dropped by the `is not None` filter are skipped. -/
def lookupSkipNone : List (String × Option JVal) → String → Option JVal
  | [], _ => none
  | (k, v) :: rest, key =>
    if k = key then
      match v with
      | some x => some x
      | none => lookupSkipNone rest key
    else lookupSkipNone rest key

theorem dictGet_emitOpts (l : List (String × Option JVal)) (key : String) :
    dictGet (emitOpts l) key = lookupSkipNone l key := by
  induction l with
  | nil => simp [emitOpts, lookupSkipNone, dictGet]
  | cons kv rest ih =>
    obtain ⟨k, v⟩ := kv
    cases v with
    | none =>
      by_cases h : k = key <;> simp [emitOpts, lookupSkipNone, h, ih]
    | some x =>
      by_cases h : k = key <;> simp [emitOpts, lookupSkipNone, dictGet, h, ih]

theorem dictGet_domainSegment_other (r : DnsRecord) (key : String)
    (h1 : key ≠ "domainid") (h2 : key ≠ "domainId") (h3 : key ≠ "domainID")
    (h4 : key ≠ "name") :
    dictGet r.domainSegment key = none := by
  unfold DnsRecord.domainSegment
  split
  · simp [dictGet, Ne.symm h1, Ne.symm h2, Ne.symm h3]
  · split
    · simp [dictGet, Ne.symm h4]
    · rfl

theorem to_dict_get_type (r : DnsRecord) :
    dictGet r.to_dict ("type") = some (JVal.s r.type.toWire) := by
  simp [DnsRecord.to_dict, dictGet]

theorem to_dict_get_lookup (r : DnsRecord) :
    dictGet r.to_dict ("lookup") = some (JVal.s r.lookup) := by
  simp [DnsRecord.to_dict, dictGet]

theorem to_dict_get_data (r : DnsRecord) :
    dictGet r.to_dict ("data") = some (jOptStr r.data) := by
  simp [DnsRecord.to_dict, dictGet]

theorem to_dict_pyGet_caatag (r : DnsRecord) :
    pyGet r.to_dict ("caatag") = jOptStr r.caa_tag := by
  unfold pyGet
  rw [DnsRecord.to_dict, dictGet_append, dictGet_append,
    dictGet_domainSegment_other r _ (by decide) (by decide) (by decide) (by decide),
    dictGet_emitOpts]
  simp only [dictGet, reduceIte]
  simp [DnsRecord.optsList, lookupSkipNone]
  cases r.caa_tag <;> simp [jOptStr]

theorem to_dict_pyGet_caaflag (r : DnsRecord) :
    pyGet r.to_dict ("caaflag") = jOptInt r.caa_flag := by
  unfold pyGet
  rw [DnsRecord.to_dict, dictGet_append, dictGet_append,
    dictGet_domainSegment_other r _ (by decide) (by decide) (by decide) (by decide),
    dictGet_emitOpts]
  simp only [dictGet, reduceIte]
  simp [DnsRecord.optsList, lookupSkipNone]
  cases r.caa_flag <;> simp [jOptInt]

theorem to_dict_pyGet_id (r : DnsRecord) :
    pyGet r.to_dict ("id") = jOptStr r.id := by
  unfold pyGet
  rw [DnsRecord.to_dict, dictGet_append, dictGet_append,
    dictGet_domainSegment_other r _ (by decide) (by decide) (by decide) (by decide),
    dictGet_emitOpts]
  simp only [dictGet, reduceIte]
  simp [DnsRecord.optsList, lookupSkipNone]
  cases r.id <;> simp [jOptStr]

theorem to_dict_pyGet_port (r : DnsRecord) :
    pyGet r.to_dict ("port") = jOptInt r.port := by
  unfold pyGet
  rw [DnsRecord.to_dict, dictGet_append, dictGet_append,
    dictGet_domainSegment_other r _ (by decide) (by decide) (by decide) (by decide),
    dictGet_emitOpts]
  simp only [dictGet, reduceIte]
  simp [DnsRecord.optsList, lookupSkipNone]
  cases r.port <;> simp [jOptInt]

theorem to_dict_pyGet_priority (r : DnsRecord) :
    pyGet r.to_dict ("priority") = jOptInt r.priority := by
  unfold pyGet
  rw [DnsRecord.to_dict, dictGet_append, dictGet_append,
    dictGet_domainSegment_other r _ (by decide) (by decide) (by decide) (by decide),
    dictGet_emitOpts]
  simp only [dictGet, reduceIte]
  simp [DnsRecord.optsList, lookupSkipNone]
  cases r.priority <;> simp [jOptInt]

theorem to_dict_pyGet_ttl (r : DnsRecord) :
    pyGet r.to_dict ("ttl") = jOptInt r.ttl := by
  unfold pyGet
  rw [DnsRecord.to_dict, dictGet_append, dictGet_append,
    dictGet_domainSegment_other r _ (by decide) (by decide) (by decide) (by decide),
    dictGet_emitOpts]
  simp only [dictGet, reduceIte]
  simp [DnsRecord.optsList, lookupSkipNone]
  cases r.ttl <;> simp [jOptInt]

theorem to_dict_pyGet_weight (r : DnsRecord) :
    pyGet r.to_dict ("weight") = jOptInt r.weight := by
  unfold pyGet
  rw [DnsRecord.to_dict, dictGet_append, dictGet_append,
    dictGet_domainSegment_other r _ (by decide) (by decide) (by decide) (by decide),
    dictGet_emitOpts]
  simp only [dictGet, reduceIte]
  simp [DnsRecord.optsList, lookupSkipNone]
  cases r.weight <;> simp [jOptInt]

theorem dictGet_to_dict_customer (r : DnsRecord) (key : String)
    (hk : key = "customerid" ∨ key = "customerId" ∨ key = "customerID") :
    dictGet r.to_dict key = r.customer_id.map JVal.i := by
  rw [DnsRecord.to_dict, dictGet_append, dictGet_append, dictGet_emitOpts]
  rcases hk with hk | hk | hk <;> subst hk <;>
    rw [dictGet_domainSegment_other r _ (by decide) (by decide) (by decide) (by decide)] <;>
    simp only [dictGet, reduceIte] <;>
    simp [DnsRecord.optsList, lookupSkipNone] <;>
    cases r.customer_id <;> simp

theorem dictGet_to_dict_region (r : DnsRecord) (key : String)
    (hk : key = "regionid" ∨ key = "regionId" ∨ key = "regionID") :
    dictGet r.to_dict key = r.region_id.map JVal.i := by
  rw [DnsRecord.to_dict, dictGet_append, dictGet_append, dictGet_emitOpts]
  rcases hk with hk | hk | hk <;> subst hk <;>
    rw [dictGet_domainSegment_other r _ (by decide) (by decide) (by decide) (by decide)] <;>
    simp only [dictGet, reduceIte] <;>
    simp [DnsRecord.optsList, lookupSkipNone] <;>
    cases r.region_id <;> simp

theorem dictGet_to_dict_domain (r : DnsRecord) (key : String)
    (hk : key = "domainid" ∨ key = "domainId" ∨ key = "domainID")
    (h : r.domain_id ≠ some 0) :
    dictGet r.to_dict key = r.domain_id.map JVal.i := by
  rw [DnsRecord.to_dict, dictGet_append, dictGet_append, dictGet_emitOpts]
  rcases hk with hk | hk | hk <;> subst hk <;> simp only [dictGet, reduceIte] <;>
    cases hdi : r.domain_id with
  | none =>
      cases htr : truthyOptStr r.domain_name <;>
        simp [DnsRecord.domainSegment, hdi, truthyOptInt, htr, dictGet,
          DnsRecord.optsList, lookupSkipNone]
  | some n =>
      have hn : n ≠ 0 := fun h0 => h (by rw [hdi, h0])
      simp [DnsRecord.domainSegment, hdi, truthyOptInt, hn, dictGet]

theorem pyGet_to_dict_name (r : DnsRecord)
    (h3 : r.domain_name ≠ some "") (h4 : r.domain_id = none ∨ r.domain_name = none) :
    pyGet r.to_dict ("name") = jOptStr r.domain_name := by
  unfold pyGet
  rw [DnsRecord.to_dict, dictGet_append, dictGet_append, dictGet_emitOpts]
  simp only [dictGet, reduceIte]
  cases hdi : r.domain_id with
  | none =>
      cases hdn : r.domain_name with
      | none =>
          simp [DnsRecord.domainSegment, hdi, hdn, truthyOptInt, truthyOptStr,
            dictGet, DnsRecord.optsList, lookupSkipNone, jOptStr]
      | some s =>
          have hs : s ≠ "" := fun h0 => h3 (by rw [hdn, h0])
          simp [DnsRecord.domainSegment, hdi, hdn, truthyOptInt, truthyOptStr, hs,
            dictGet, jOptStr]
  | some n =>
      have hdn : r.domain_name = none := by
        rcases h4 with h4 | h4
        · rw [hdi] at h4; exact absurd h4 (by simp)
        · exact h4
      cases htr : truthyOptInt (some n) <;>
        simp [DnsRecord.domainSegment, hdi, hdn, htr, truthyOptStr, dictGet,
          DnsRecord.optsList, lookupSkipNone, jOptStr]

theorem get_first_to_dict_customer (r : DnsRecord) :
    get_first r.to_dict ["customerid", "customerId", "customerID"] = jOptInt r.customer_id := by
  cases hc : r.customer_id <;>
    simp [get_first, dictGet_to_dict_customer r _ (Or.inl rfl), hc, jOptInt,
      dictGet_to_dict_customer r _ (Or.inr (Or.inl rfl)),
      dictGet_to_dict_customer r _ (Or.inr (Or.inr rfl))]

theorem get_first_to_dict_region (r : DnsRecord) :
    get_first r.to_dict ["regionid", "regionId", "regionID"] = jOptInt r.region_id := by
  cases hc : r.region_id <;>
    simp [get_first, dictGet_to_dict_region r _ (Or.inl rfl), hc, jOptInt,
      dictGet_to_dict_region r _ (Or.inr (Or.inl rfl)),
      dictGet_to_dict_region r _ (Or.inr (Or.inr rfl))]

theorem get_first_to_dict_domain (r : DnsRecord) (h : r.domain_id ≠ some 0) :
    get_first r.to_dict ["domainid", "domainId", "domainID"] = jOptInt r.domain_id := by
  cases hc : r.domain_id <;>
    simp [get_first, dictGet_to_dict_domain r _ (Or.inl rfl) h, hc, jOptInt,
      dictGet_to_dict_domain r _ (Or.inr (Or.inl rfl)) h,
      dictGet_to_dict_domain r _ (Or.inr (Or.inr rfl)) h]

/-! Decoder inverses of the scalar encoders. -/

theorem asOptStr_jOptStr (o : Option String) : asOptStr (jOptStr o) = some o := by
  cases o <;> rfl

theorem asOptInt_jOptInt (o : Option Int) : asOptInt (jOptInt o) = some o := by
  cases o <;> rfl

theorem ofWire_toWire (t : DnsRecordType) :
    DnsRecordType.ofWire t.toWire = some t := by
  cases t <;> rfl

/-- Record used to exercise the round trip with every optional field
populated. -/
def demoFullRecord : DnsRecord :=
  { lookup := "www", type := DnsRecordType.A, data := some "203.0.113.7",
    caa_tag := some "issue", caa_flag := some 0, customer_id := some 7,
    domain_id := some 42, domain_name := none, id := some "5",
    port := some 443, priority := some 10, region_id := some 3,
    ttl := some 300, weight := some 1 }

/-- C1 (amended): decoding the encoding of a DnsRecord reproduces every field
of the original record, and null-valued optional fields decode back to unset,
provided the domain reference is representable: a populated domain_id is
nonzero, a populated domain_name is nonempty, and the two are not populated
simultaneously (the encoder keeps only domain_id in that case). -/
theorem dnsRecord_roundtrip (r : DnsRecord) (_h1 : r.data ≠ none)
    (h2 : r.domain_id ≠ some 0) (h3 : r.domain_name ≠ some "")
    (h4 : r.domain_id = none ∨ r.domain_name = none) :
    DnsRecord.from_dict r.to_dict = some r := by
  rw [DnsRecord.from_dict, to_dict_get_lookup, to_dict_get_type, to_dict_get_data,
    to_dict_pyGet_caatag, to_dict_pyGet_caaflag, get_first_to_dict_customer,
    get_first_to_dict_domain r h2, pyGet_to_dict_name r h3 h4, to_dict_pyGet_id,
    to_dict_pyGet_port, to_dict_pyGet_priority, get_first_to_dict_region,
    to_dict_pyGet_ttl, to_dict_pyGet_weight]
  simp [asStr, ofWire_toWire, asOptStr_jOptStr, asOptInt_jOptInt]

/-- C1 counterexample: a record with both domain_id and domain_name populated
does not survive the round trip — the encoder emits only the domain_id keys,
so the decoded record has domain_name unset. -/
theorem dnsRecord_roundtrip_counterexample :
    DnsRecord.from_dict (DnsRecord.to_dict
      { lookup := "w", type := DnsRecordType.TXT, data := some "v",
        domain_id := some 1, domain_name := some "zone.example" }) ≠
    some { lookup := "w", type := DnsRecordType.TXT, data := some "v",
           domain_id := some 1, domain_name := some "zone.example" } := by
  decide

/-- C1 witness: the amended round trip holds at a concrete record with every
optional field populated. -/
theorem dnsRecord_roundtrip_witness :
    (demoFullRecord.data ≠ none ∧ demoFullRecord.domain_id ≠ some 0 ∧
      demoFullRecord.domain_name ≠ some "" ∧
      (demoFullRecord.domain_id = none ∨ demoFullRecord.domain_name = none)) ∧
    DnsRecord.from_dict demoFullRecord.to_dict = some demoFullRecord :=
  ⟨⟨by decide, by decide, by decide, by decide⟩,
   dnsRecord_roundtrip demoFullRecord (by decide) (by decide) (by decide) (by decide)⟩

theorem dictGet_to_dict_name_truthy_id (r : DnsRecord) (n : Int)
    (hdi : r.domain_id = some n) (hn : n ≠ 0) :
    dictGet r.to_dict ("name") = none := by
  rw [DnsRecord.to_dict, dictGet_append, dictGet_append, dictGet_emitOpts]
  simp only [dictGet, reduceIte]
  simp [DnsRecord.domainSegment, hdi, truthyOptInt, hn, dictGet,
    DnsRecord.optsList, lookupSkipNone]

theorem dictGet_to_dict_domain_falsy (r : DnsRecord) (key : String)
    (hk : key = "domainid" ∨ key = "domainId" ∨ key = "domainID")
    (htr : truthyOptInt r.domain_id = false) :
    dictGet r.to_dict key = none := by
  rw [DnsRecord.to_dict, dictGet_append, dictGet_append, dictGet_emitOpts]
  rcases hk with hk | hk | hk <;> subst hk <;> simp only [dictGet, reduceIte] <;>
    cases hdn : truthyOptStr r.domain_name <;>
    simp [DnsRecord.domainSegment, htr, hdn, dictGet,
      DnsRecord.optsList, lookupSkipNone]

theorem dictGet_to_dict_name_truthy_name (r : DnsRecord) (s : String)
    (htr : truthyOptInt r.domain_id = false) (hdn : r.domain_name = some s)
    (hs : s ≠ "") :
    dictGet r.to_dict ("name") = some (JVal.s s) := by
  rw [DnsRecord.to_dict, dictGet_append, dictGet_append, dictGet_emitOpts]
  simp only [dictGet, reduceIte]
  simp [DnsRecord.domainSegment, htr, hdn, truthyOptStr, hs, dictGet]

/-- C3 (amended): encoding follows the domain-reference rule up to Python
truthiness: if domain_id is set to a nonzero value, the output carries all
three spellings equal to it and no name key; if domain_id is unset or zero
and domain_name is set to a nonempty string, the output carries name and none
of the three domain-id spellings. -/
theorem to_dict_domain_rule (r : DnsRecord) :
    (∀ n : Int, r.domain_id = some n → n ≠ 0 →
      dictGet r.to_dict ("domainid") = some (JVal.i n) ∧
      dictGet r.to_dict ("domainId") = some (JVal.i n) ∧
      dictGet r.to_dict ("domainID") = some (JVal.i n) ∧
      dictGet r.to_dict ("name") = none) ∧
    (truthyOptInt r.domain_id = false →
      ∀ s : String, r.domain_name = some s → s ≠ "" →
      dictGet r.to_dict ("name") = some (JVal.s s) ∧
      dictGet r.to_dict ("domainid") = none ∧
      dictGet r.to_dict ("domainId") = none ∧
      dictGet r.to_dict ("domainID") = none) := by
  constructor
  · intro n hdi hn
    have h : r.domain_id ≠ some 0 := by rw [hdi]; simp [hn]
    refine ⟨?_, ?_, ?_, dictGet_to_dict_name_truthy_id r n hdi hn⟩ <;>
      rw [dictGet_to_dict_domain r _ (by simp) h, hdi] <;> rfl
  · intro htr s hdn hs
    exact ⟨dictGet_to_dict_name_truthy_name r s htr hdn hs,
      dictGet_to_dict_domain_falsy r _ (Or.inl rfl) htr,
      dictGet_to_dict_domain_falsy r _ (Or.inr (Or.inl rfl)) htr,
      dictGet_to_dict_domain_falsy r _ (Or.inr (Or.inr rfl)) htr⟩

/-- C3 counterexample: a record with domain_id set (to 0) and domain_name set
is encoded with no domainid key and with a name key — against the claimed
rule that a set domain_id always wins and yields the three id spellings. -/
theorem to_dict_domain_rule_counterexample :
    containsKey (DnsRecord.to_dict
      { lookup := "w", type := DnsRecordType.TXT, data := some "v",
        domain_id := some 0, domain_name := some "zed" }) ("domainid") = false ∧
    containsKey (DnsRecord.to_dict
      { lookup := "w", type := DnsRecordType.TXT, data := some "v",
        domain_id := some 0, domain_name := some "zed" }) ("name") = true := by
  decide

/-- Record with only the domain id reference populated. -/
def demoDomainIdRecord : DnsRecord :=
  { lookup := "w", type := DnsRecordType.TXT, data := some "v",
    domain_id := some 42 }

/-- Record with only the domain name reference populated. -/
def demoDomainNameRecord : DnsRecord :=
  { lookup := "w", type := DnsRecordType.TXT, data := some "v",
    domain_name := some "example.com" }

/-- C3 witness: both branches of the domain-reference rule at concrete
records. -/
theorem to_dict_domain_rule_witness :
    (dictGet demoDomainIdRecord.to_dict ("domainid") = some (JVal.i 42) ∧
      dictGet demoDomainIdRecord.to_dict ("domainId") = some (JVal.i 42) ∧
      dictGet demoDomainIdRecord.to_dict ("domainID") = some (JVal.i 42) ∧
      dictGet demoDomainIdRecord.to_dict ("name") = none) ∧
    (dictGet demoDomainNameRecord.to_dict ("name") = some (JVal.s "example.com") ∧
      dictGet demoDomainNameRecord.to_dict ("domainid") = none ∧
      dictGet demoDomainNameRecord.to_dict ("domainId") = none ∧
      dictGet demoDomainNameRecord.to_dict ("domainID") = none) :=
  ⟨(to_dict_domain_rule demoDomainIdRecord).1 42 rfl (by decide),
   (to_dict_domain_rule demoDomainNameRecord).2 (by decide) _ rfl (by decide)⟩

theorem get_first_head (d : Dict) (k : String) (ks : List String) (v : JVal)
    (h : dictGet d k = some v) : get_first d (k :: ks) = v := by
  simp [get_first, h]

theorem get_first_tail (d : Dict) (k : String) (ks : List String)
    (h : dictGet d k = none) : get_first d (k :: ks) = get_first d ks := by
  simp [get_first, h]

/-- Inversion of a successful decode: the multi-spelling id fields and the
domain name field of the result are exactly the decodes of the corresponding
probes. -/
theorem from_dict_fields (d : Dict) (r : DnsRecord)
    (h : DnsRecord.from_dict d = some r) :
    asOptInt (get_first d ["customerid", "customerId", "customerID"]) = some r.customer_id ∧
    asOptInt (get_first d ["domainid", "domainId", "domainID"]) = some r.domain_id ∧
    asOptInt (get_first d ["regionid", "regionId", "regionID"]) = some r.region_id := by
  rw [DnsRecord.from_dict] at h
  obtain ⟨lkV, hlkV, h⟩ := Option.bind_eq_some.mp h
  obtain ⟨lkS, hlkS, h⟩ := Option.bind_eq_some.mp h
  obtain ⟨tyV, htyV, h⟩ := Option.bind_eq_some.mp h
  obtain ⟨tyS, htyS, h⟩ := Option.bind_eq_some.mp h
  obtain ⟨ty, hty, h⟩ := Option.bind_eq_some.mp h
  obtain ⟨dataV, hdataV, h⟩ := Option.bind_eq_some.mp h
  obtain ⟨dataO, hdataO, h⟩ := Option.bind_eq_some.mp h
  obtain ⟨caaT, hcaaT, h⟩ := Option.bind_eq_some.mp h
  obtain ⟨caaF, hcaaF, h⟩ := Option.bind_eq_some.mp h
  obtain ⟨cu, hcu, h⟩ := Option.bind_eq_some.mp h
  obtain ⟨di, hdi, h⟩ := Option.bind_eq_some.mp h
  obtain ⟨dn, hdn, h⟩ := Option.bind_eq_some.mp h
  obtain ⟨idv, hidv, h⟩ := Option.bind_eq_some.mp h
  obtain ⟨po, hpo, h⟩ := Option.bind_eq_some.mp h
  obtain ⟨pr, hpr, h⟩ := Option.bind_eq_some.mp h
  obtain ⟨re, hre, h⟩ := Option.bind_eq_some.mp h
  obtain ⟨tt, htt, h⟩ := Option.bind_eq_some.mp h
  obtain ⟨we, hwe, h⟩ := Option.bind_eq_some.mp h
  have := Option.some.inj h
  subst this
  exact ⟨hcu, hdi, hre⟩

/-- C7: when decoding a record dictionary the decoder probes the id spellings
in the fixed priority order domainid, domainId, domainID (likewise customerid
and regionid first for their fields) and takes the value of the first
spelling present. -/
theorem from_dict_key_priority (d : Dict) (r : DnsRecord)
    (h : DnsRecord.from_dict d = some r) :
    (∀ n : Int, dictGet d ("domainid") = some (JVal.i n) → r.domain_id = some n) ∧
    (dictGet d ("domainid") = none →
      ∀ n : Int, dictGet d ("domainId") = some (JVal.i n) → r.domain_id = some n) ∧
    (dictGet d ("domainid") = none → dictGet d ("domainId") = none →
      ∀ n : Int, dictGet d ("domainID") = some (JVal.i n) → r.domain_id = some n) ∧
    (∀ n : Int, dictGet d ("customerid") = some (JVal.i n) → r.customer_id = some n) ∧
    (∀ n : Int, dictGet d ("regionid") = some (JVal.i n) → r.region_id = some n) := by
  obtain ⟨hcu, hdi, hre⟩ := from_dict_fields d r h
  refine ⟨?_, ?_, ?_, ?_, ?_⟩
  · intro n h1
    rw [get_first_head _ _ _ _ h1] at hdi
    simpa [asOptInt, eq_comm] using hdi
  · intro h0 n h1
    rw [get_first_tail _ _ _ h0, get_first_head _ _ _ _ h1] at hdi
    simpa [asOptInt, eq_comm] using hdi
  · intro h0 h0b n h1
    rw [get_first_tail _ _ _ h0, get_first_tail _ _ _ h0b,
      get_first_head _ _ _ _ h1] at hdi
    simpa [asOptInt, eq_comm] using hdi
  · intro n h1
    rw [get_first_head _ _ _ _ h1] at hcu
    simpa [asOptInt, eq_comm] using hcu
  · intro n h1
    rw [get_first_head _ _ _ _ h1] at hre
    simpa [asOptInt, eq_comm] using hre

/-- Dictionary whose first domain-id spelling shadows the second. -/
def demoPriorityDict : Dict :=
  [("lookup", JVal.s "w"), ("type", JVal.s "TXT"), ("data", JVal.s "v"),
   ("domainid", JVal.i 1), ("domainId", JVal.i 2)]

/-- Decode of `demoPriorityDict`. -/
def demoPriorityRecord : DnsRecord :=
  { lookup := "w", type := DnsRecordType.TXT, data := some "v",
    domain_id := some 1 }

/-- C7 witness: decoding the dictionary with domainid 1 and domainId 2 yields
domain_id 1. -/
theorem from_dict_key_priority_witness :
    DnsRecord.from_dict demoPriorityDict = some demoPriorityRecord ∧
    demoPriorityRecord.domain_id = some 1 :=
  ⟨by decide,
   (from_dict_key_priority demoPriorityDict demoPriorityRecord (by decide)).1 1 (by decide)⟩

/-- C10: the decode helper returns the first listed key present even when its
value is null, so a null highest-priority spelling shadows a populated
lower-priority one and the decoded field is unset. -/
theorem from_dict_null_shadowing (d : Dict) (r : DnsRecord)
    (h1 : dictGet d ("domainid") = some JVal.null)
    (h2 : DnsRecord.from_dict d = some r) :
    get_first d ["domainid", "domainId", "domainID"] = JVal.null ∧
    r.domain_id = none := by
  have hg := get_first_head d ("domainid") ["domainId", "domainID"] JVal.null h1
  obtain ⟨-, hdi, -⟩ := from_dict_fields d r h2
  rw [hg] at hdi
  refine ⟨hg, ?_⟩
  simpa [asOptInt, eq_comm] using hdi

/-- Dictionary where a null domainid shadows a populated domainId. -/
def demoNullShadowDict : Dict :=
  [("lookup", JVal.s "w"), ("type", JVal.s "TXT"), ("data", JVal.s "v"),
   ("domainid", JVal.null), ("domainId", JVal.i 2)]

/-- Decode of `demoNullShadowDict`: domain_id is unset. -/
def demoNullShadowRecord : DnsRecord :=
  { lookup := "w", type := DnsRecordType.TXT, data := some "v" }

/-- C10 witness: a dictionary with domainid null and domainId 2 decodes with
domain_id unset. -/
theorem from_dict_null_shadowing_witness :
    DnsRecord.from_dict demoNullShadowDict = some demoNullShadowRecord ∧
    (get_first demoNullShadowDict ["domainid", "domainId", "domainID"] = JVal.null ∧
      demoNullShadowRecord.domain_id = none) :=
  ⟨by decide,
   from_dict_null_shadowing demoNullShadowDict demoNullShadowRecord (by decide) (by decide)⟩

/-! Credential resolution, from `cred.py`. -/

/-- Python `str.strip()` (whitespace at both ends removed), written over the
character list so that it evaluates by kernel reduction. -/
def pyStrip (s : String) : String :=
  ⟨List.reverse (List.dropWhile Char.isWhitespace
    (List.reverse (List.dropWhile Char.isWhitespace s.data)))⟩

/-- The `ApiCredential` pair of `cred.py`. -/
structure ApiCredential where
  api_uuid : String
  api_secret : String
  deriving DecidableEq, Repr

/-- An INI section: ordered key/value entries. -/
abbrev IniSection := List (String × String)

/-- A parsed INI config: ordered named sections. -/
abbrev IniConfig := List (String × IniSection)

/-- `configparser` section read with default: `config[sec].get(key, "")`. -/
def sectionGet (sec : IniSection) (key : String) : String :=
  match sec.find? (fun kv => decide (kv.1 = key)) with
  | some kv => kv.2
  | none => ""

/-- `"name" in config` / `config["name"]`. -/
def configSection (c : IniConfig) (name : String) : Option IniSection :=
  match c.find? (fun s => decide (s.1 = name)) with
  | some s => some s.2
  | none => none

/-- One loop iteration of `get_api_credentials` over a config path: `none`
models a path that does not exist; an existing file contributes a credential
only when it has a general section whose apiuuid and apisecret are both
non-empty after stripping, and the loop falls through otherwise. -/
def credFromFile : Option IniConfig → Option ApiCredential
  | none => none
  | some cfg =>
    match configSection cfg ("general") with
    | none => none
    | some sec =>
      let u := pyStrip (sectionGet sec ("apiuuid"))
      let s := pyStrip (sectionGet sec ("apisecret"))
      if u ≠ "" ∧ s ≠ "" then some ⟨u, s⟩ else none

/-- `get_api_credentials` of `cred.py`.  The two environment variables and the
parsed contents of the two fixed config paths (a non-existing file is `none`)
are passed explicitly instead of read ambiently. -/
def get_api_credentials (envUuid envSecret : Option String)
    (file1 file2 : Option IniConfig) : Option ApiCredential :=
  let api_uuid := pyStrip (envUuid.getD "")
  let api_secret := pyStrip (envSecret.getD "")
  if api_uuid ≠ "" ∧ api_secret ≠ "" then some ⟨api_uuid, api_secret⟩
  else
    match credFromFile file1 with
    | some c => some c
    | none => credFromFile file2

/-- C5 counterexample: with blank environment variables, the first fixed path
existing but yielding a blank pair, and the second path holding valid
credentials, the resolver returns the second file's pair — the claim, which
lets only the first existing file be consulted and otherwise demands absent,
requires `none` here. -/
theorem cred_first_existing_counterexample :
    credFromFile (some [("general", [("apiuuid", ""), ("apisecret", "")])]) = none ∧
    get_api_credentials none none
      (some [("general", [("apiuuid", ""), ("apisecret", "")])])
      (some [("general", [("apiuuid", "uu"), ("apisecret", "ss")])]) =
      some ⟨"uu", "ss"⟩ := by
  decide

/-- C5 (amended): resolution returns the environment pair when both variables
are non-empty after stripping; otherwise it scans the two fixed paths in
order and returns the general-section pair of the first file that exists and
yields both values non-empty after stripping; if no source yields such a
pair, resolution returns absent — never a fabricated default. -/
theorem cred_resolution (envUuid envSecret : Option String)
    (file1 file2 : Option IniConfig) :
    (pyStrip (envUuid.getD "") ≠ "" → pyStrip (envSecret.getD "") ≠ "" →
      get_api_credentials envUuid envSecret file1 file2 =
        some ⟨pyStrip (envUuid.getD ""), pyStrip (envSecret.getD "")⟩) ∧
    ((pyStrip (envUuid.getD "") = "" ∨ pyStrip (envSecret.getD "") = "") →
      get_api_credentials envUuid envSecret file1 file2 =
        [file1, file2].findSome? credFromFile) ∧
    (∀ cfg c, credFromFile (some cfg) = some c ↔
      ∃ sec, configSection cfg ("general") = some sec ∧
        pyStrip (sectionGet sec ("apiuuid")) ≠ "" ∧
        pyStrip (sectionGet sec ("apisecret")) ≠ "" ∧
        c = ⟨pyStrip (sectionGet sec ("apiuuid")),
             pyStrip (sectionGet sec ("apisecret"))⟩) := by
  refine ⟨?_, ?_, ?_⟩
  · intro h1 h2
    simp [get_api_credentials, h1, h2]
  · intro h
    have hnot : ¬ (pyStrip (envUuid.getD "") ≠ "" ∧ pyStrip (envSecret.getD "") ≠ "") := by
      rcases h with h | h <;> simp [h]
    simp only [get_api_credentials, if_neg hnot]
    cases h1 : credFromFile file1 with
    | some c => simp [List.findSome?_cons, h1]
    | none =>
      simp only [List.findSome?_cons, h1]
      cases credFromFile file2 <;> simp
  · intro cfg c
    constructor
    · intro h
      simp only [credFromFile] at h
      cases hsec : configSection cfg ("general") with
      | none => simp [hsec] at h
      | some sec =>
        simp only [hsec] at h
        by_cases hcond : pyStrip (sectionGet sec ("apiuuid")) ≠ "" ∧
            pyStrip (sectionGet sec ("apisecret")) ≠ ""
        · rw [if_pos hcond] at h
          exact ⟨sec, rfl, hcond.1, hcond.2, (Option.some.inj h).symm⟩
        · rw [if_neg hcond] at h
          exact absurd h (by simp)
    · rintro ⟨sec, hsec, h1, h2, rfl⟩
      simp only [credFromFile, hsec]
      rw [if_pos ⟨h1, h2⟩]

/-- C5 witness: both resolution branches at concrete inputs — environment
wins when populated, and with a blank environment the file scan runs. -/
theorem cred_resolution_witness :
    get_api_credentials (some " u ") (some "s") none none = some ⟨"u", "s"⟩ ∧
    get_api_credentials none none none
      (some [("general", [("apiuuid", "uu"), ("apisecret", "ss")])]) =
      some ⟨"uu", "ss"⟩ := by
  constructor
  · have h := (cred_resolution (some " u ") (some "s") none none).1
      (by decide) (by decide)
    rw [h]
    decide
  · have h := (cred_resolution none none none
      (some [("general", [("apiuuid", "uu"), ("apisecret", "ss")])])).2.1
      (Or.inl (by decide))
    rw [h]
    decide

/-! Domain decode and the DNS operations facade, from `dns.py`. -/

/-- Decode every record dict of a domain response, failing if any fails. -/
def decodeRecordList : List Dict → Option (List DnsRecord)
  | [] => some []
  | d :: rest =>
    match DnsRecord.from_dict d, decodeRecordList rest with
    | some r, some rs => some (r :: rs)
    | _, _ => none

/-- A domain dictionary on the wire.  `JVal` is scalar-only, so the nested
records array of the Python dict is carried alongside the scalar fields
(absent array = `[]`, matching `d.get("records", [])`). -/
structure DomainWire where
  fields : Dict
  records : List Dict := []
  deriving DecidableEq, Repr

/-- The `DnsDomain` dataclass of `dns.py`.  All fields except id are read
with `d.get`, hence optional. -/
structure DnsDomain where
  id : Int
  customer_id : Option Int := none
  serial : Option String := none
  stdname : Option String := none
  name : Option String := none
  type : Option String := none
  last_modified : Option Int := none
  records : List DnsRecord := []
  deriving DecidableEq, Repr

/-- `DnsDomain.from_dict` of `dns.py`: id is required (`d["id"]`), the rest
decode leniently, and a records array decodes recursively. -/
def DnsDomain.from_dict (w : DomainWire) : Option DnsDomain :=
  (dictGet w.fields ("id")).bind fun idV =>
  (asInt idV).bind fun idN =>
  (asOptInt (get_first w.fields ["customerid", "customerId", "customerID"])).bind fun cu =>
  (asOptStr (pyGet w.fields ("serial"))).bind fun serialS =>
  (asOptStr (pyGet w.fields ("stdname"))).bind fun stdnameS =>
  (asOptStr (pyGet w.fields ("name"))).bind fun nm =>
  (asOptStr (pyGet w.fields ("type"))).bind fun ty =>
  (asOptInt (pyGet w.fields ("lastmodified"))).bind fun lm =>
  (decodeRecordList w.records).bind fun recs =>
  some ⟨idN, cu, serialS, stdnameS, nm, ty, lm, recs⟩

/-- Decode every domain of a domain-list response, failing if any fails. -/
def decodeDomains : List DomainWire → Option (List DnsDomain)
  | [] => some []
  | w :: rest =>
    match DnsDomain.from_dict w, decodeDomains rest with
    | some d, some ds => some (d :: ds)
    | _, _ => none

/-- The JSON envelope of every provider response: code, message and a
payload (the optional debug field is only logged and not modelled). -/
structure Envelope (α : Type) where
  code : String
  message : String
  data : α
  deriving DecidableEq, Repr

/-- An HTTP response as consumed by the facade: status code, raw text and
the decoded JSON envelope. -/
structure HttpResponse (α : Type) where
  status_code : Int
  text : String
  body : Envelope α
  deriving DecidableEq, Repr

/-- The error taxonomy of the client: HTTP transport failure, application
failure signalled by the envelope code, local validation failure
(`ValueError`), and decode failure (`KeyError` and kin).  Distinct
constructors keep the kinds distinguishable. -/
inductive ApiError where
  | transport (status : Int) (body : String)
  | apiSemantic (message : String)
  | validation (message : String)
  | decodeFailure (message : String)
  deriving DecidableEq, Repr

/-- `_raise_request_exception`: a non-2xx response becomes a transport error
carrying the status code and response text. -/
def raise_request_exception {α : Type} (resp : HttpResponse α) : ApiError :=
  ApiError.transport resp.status_code resp.text

/-- Modelled from the spec: the `_api` class used by `dns.py` and
`client.py` — in particular its method `raise_if_json_code_not_ok` — is not
under src (only its callers are).  Per §4.2, even on HTTP 200 the decoded
envelope carries its own code and message, and a code other than OK is a
distinct application-level failure raised with the envelope message. -/
def raise_if_json_code_not_ok {α : Type} (e : Envelope α) : Except ApiError Unit :=
  if e.code = "OK" then Except.ok ()
  else Except.error (ApiError.apiSemantic e.message)

/-- `_dnsOperations.domain_getall`, parameterised by the response. -/
def rc_domain_getall (resp : HttpResponse (List DomainWire)) :
    Except ApiError (List DnsDomain) :=
  if resp.status_code ≠ 200 then Except.error (raise_request_exception resp)
  else
    match raise_if_json_code_not_ok resp.body with
    | Except.error e => Except.error e
    | Except.ok _ =>
      match decodeDomains resp.body.data with
      | some doms => Except.ok doms
      | none => Except.error (ApiError.decodeFailure "domain decode failed")

/-- `_dnsOperations.domain_get`, parameterised by the response. -/
def rc_domain_get (resp : HttpResponse DomainWire) : Except ApiError DnsDomain :=
  if resp.status_code ≠ 200 then Except.error (raise_request_exception resp)
  else
    match raise_if_json_code_not_ok resp.body with
    | Except.error e => Except.error e
    | Except.ok _ =>
      match DnsDomain.from_dict resp.body.data with
      | some dom => Except.ok dom
      | none => Except.error (ApiError.decodeFailure "domain decode failed")

/-- `_dnsOperations.record_get`, parameterised by the response. -/
def rc_record_get (resp : HttpResponse Dict) : Except ApiError DnsRecord :=
  if resp.status_code ≠ 200 then Except.error (raise_request_exception resp)
  else
    match raise_if_json_code_not_ok resp.body with
    | Except.error e => Except.error e
    | Except.ok _ =>
      match DnsRecord.from_dict resp.body.data with
      | some rec => Except.ok rec
      | none => Except.error (ApiError.decodeFailure "record decode failed")

/-- `_dnsOperations.record_delete`, parameterised by the response. -/
def rc_record_delete (resp : HttpResponse (List Dict)) : Except ApiError Unit :=
  if resp.status_code ≠ 200 then Except.error (raise_request_exception resp)
  else
    match raise_if_json_code_not_ok resp.body with
    | Except.error e => Except.error e
    | Except.ok _ => Except.ok ()

/-- Key of the provider's numeric/id-keyed legacy batch payload. -/
inductive LegacyKey where
  | intKey (n : Int)
  | strKey (s : String)
  | noneKey
  deriving DecidableEq, Repr

/-- A legacy `json.php` command body: cmd, optional keyed data map, optional
top-level id (used by delete). -/
structure LegacyRequest where
  cmd : String
  data : List (LegacyKey × Dict) := []
  id : Option String := none
  deriving DecidableEq, Repr

/-- The pre-network stage of `record_create`: encode, then require a
domainid or name key; `none` means the validation error is raised and no
request is ever issued. -/
def recordCreateRequest (r : DnsRecord) : Option LegacyRequest :=
  let d := r.to_dict
  if containsKey d ("domainid") = false ∧ containsKey d ("name") = false then none
  else some { cmd := "dns.record.create", data := [(LegacyKey.intKey 0, d)] }

/-- The request body of `record_update`: data keyed by the record's id. -/
def recordUpdateRequest (r : DnsRecord) : LegacyRequest :=
  { cmd := "dns.record.update",
    data := [(match r.id with
              | some s => LegacyKey.strKey s
              | none => LegacyKey.noneKey, r.to_dict)] }

/-- The request body of `record_delete`. -/
def recordDeleteRequest (record_id : String) : LegacyRequest :=
  { cmd := "dns.record.delete", id := some record_id }

/-- Shared response processing of the two legacy record mutations: status
check, envelope code check, then decode of the first element of the data
array (`d["data"][0]`, an IndexError when empty). -/
def legacyMutationResult (resp : HttpResponse (List Dict)) :
    Except ApiError DnsRecord :=
  if resp.status_code ≠ 200 then Except.error (raise_request_exception resp)
  else
    match raise_if_json_code_not_ok resp.body with
    | Except.error e => Except.error e
    | Except.ok _ =>
      match resp.body.data.head? with
      | none => Except.error (ApiError.decodeFailure "IndexError: empty data array")
      | some d0 =>
        match DnsRecord.from_dict d0 with
        | some rec => Except.ok rec
        | none => Except.error (ApiError.decodeFailure "record decode failed")

/-- `_dnsOperations.record_create`, parameterised by the response. -/
def rc_record_create (r : DnsRecord) (resp : HttpResponse (List Dict)) :
    Except ApiError DnsRecord :=
  match recordCreateRequest r with
  | none => Except.error
      (ApiError.validation "Either domain_id or domain_name must be provided")
  | some _ => legacyMutationResult resp

/-- `_dnsOperations.record_update`, parameterised by the response: the
request body that is sent, paired with the processed result (no local
validation happens on this path). -/
def rc_record_update (r : DnsRecord) (resp : HttpResponse (List Dict)) :
    LegacyRequest × Except ApiError DnsRecord :=
  (recordUpdateRequest r, legacyMutationResult resp)

theorem legacyMutationResult_ne_validation (resp : HttpResponse (List Dict))
    (m : String) : legacyMutationResult resp ≠ Except.error (ApiError.validation m) := by
  intro hcon
  unfold legacyMutationResult at hcon
  split at hcon
  · exact ApiError.noConfusion (Except.error.inj hcon)
  · split at hcon
    · rename_i e heq
      by_cases hok : resp.body.code = "OK" <;>
        simp [raise_if_json_code_not_ok, hok] at heq
      rw [← heq] at hcon
      exact ApiError.noConfusion (Except.error.inj hcon)
    · split at hcon
      · exact ApiError.noConfusion (Except.error.inj hcon)
      · split at hcon
        · exact Except.noConfusion hcon
        · exact ApiError.noConfusion (Except.error.inj hcon)

/-- C2: on an HTTP 200 response whose envelope code is not OK, every facade
operation of `dns._dnsOperations` — domain list, domain get, record get,
record delete, record create, record update — fails with the
application-level error carrying the envelope message, uniformly including
the record update path, and that error is distinct from every HTTP transport
error. -/
theorem facade_raises_on_code_not_ok (code msg t1 t2 t3 t4 t5 t6 : String)
    (h : code ≠ "OK")
    (dA : List DomainWire) (dD : DomainWire) (dR : Dict) (dDel dC dU : List Dict)
    (rc ru : DnsRecord) (hr : (recordCreateRequest rc).isSome = true) :
    rc_domain_getall ⟨200, t1, ⟨code, msg, dA⟩⟩ =
      Except.error (ApiError.apiSemantic msg) ∧
    rc_domain_get ⟨200, t2, ⟨code, msg, dD⟩⟩ =
      Except.error (ApiError.apiSemantic msg) ∧
    rc_record_get ⟨200, t3, ⟨code, msg, dR⟩⟩ =
      Except.error (ApiError.apiSemantic msg) ∧
    rc_record_delete ⟨200, t4, ⟨code, msg, dDel⟩⟩ =
      Except.error (ApiError.apiSemantic msg) ∧
    rc_record_create rc ⟨200, t5, ⟨code, msg, dC⟩⟩ =
      Except.error (ApiError.apiSemantic msg) ∧
    (rc_record_update ru ⟨200, t6, ⟨code, msg, dU⟩⟩).2 =
      Except.error (ApiError.apiSemantic msg) ∧
    (∀ s b, ApiError.apiSemantic msg ≠ ApiError.transport s b) := by
  obtain ⟨req, hreq⟩ := Option.isSome_iff_exists.mp hr
  refine ⟨?_, ?_, ?_, ?_, ?_, ?_, ?_⟩
  · simp [rc_domain_getall, raise_if_json_code_not_ok, h]
  · simp [rc_domain_get, raise_if_json_code_not_ok, h]
  · simp [rc_record_get, raise_if_json_code_not_ok, h]
  · simp [rc_record_delete, raise_if_json_code_not_ok, h]
  · simp [rc_record_create, hreq, legacyMutationResult, raise_if_json_code_not_ok, h]
  · simp [rc_record_update, legacyMutationResult, raise_if_json_code_not_ok, h]
  · intro s b hcon
    exact ApiError.noConfusion hcon

/-- C2 witness: the spec's API-semantic failure scenario — HTTP 200 with
code ERR_X and message bad request — raises the application error carrying
bad request on both mutation paths, including record update. -/
theorem facade_raises_on_code_not_ok_witness :
    (rc_record_update
        { lookup := "w", type := DnsRecordType.TXT, data := some "v", id := some "5" }
        ⟨200, "", ⟨"ERR_X", "bad request", []⟩⟩).2 =
      Except.error (ApiError.apiSemantic "bad request") ∧
    rc_record_create demoDomainIdRecord ⟨200, "", ⟨"ERR_X", "bad request", []⟩⟩ =
      Except.error (ApiError.apiSemantic "bad request") := by
  have H := facade_raises_on_code_not_ok "ERR_X" "bad request" "" "" "" "" "" ""
    (by decide) [] ⟨[], []⟩ [] [] [] [] demoDomainIdRecord
    { lookup := "w", type := DnsRecordType.TXT, data := some "v", id := some "5" }
    (by decide)
  exact ⟨H.2.2.2.2.2.1, H.2.2.2.2.1⟩

/-- C4: record_create validates the encoded record before any network
request — when the encoding carries neither a domainid nor a name key it
raises the validation error and produces no request, whatever response the
network would have given; when either key is present, a request is produced
and no validation error is ever raised. -/
theorem record_create_validation (r : DnsRecord) :
    (containsKey r.to_dict ("domainid") = false →
      containsKey r.to_dict ("name") = false →
      recordCreateRequest r = none ∧
      ∀ resp : HttpResponse (List Dict),
        rc_record_create r resp =
          Except.error
            (ApiError.validation "Either domain_id or domain_name must be provided")) ∧
    ((containsKey r.to_dict ("domainid") = true ∨
        containsKey r.to_dict ("name") = true) →
      (∃ req, recordCreateRequest r = some req) ∧
      ∀ (resp : HttpResponse (List Dict)) (m : String),
        rc_record_create r resp ≠ Except.error (ApiError.validation m)) := by
  constructor
  · intro h1 h2
    have hreq : recordCreateRequest r = none := by
      simp [recordCreateRequest, h1, h2]
    exact ⟨hreq, fun resp => by simp [rc_record_create, hreq]⟩
  · intro hor
    have hne : ¬(containsKey r.to_dict ("domainid") = false ∧
        containsKey r.to_dict ("name") = false) := by
      rcases hor with h | h <;> simp [h]
    have hreq : recordCreateRequest r =
        some { cmd := "dns.record.create", data := [(LegacyKey.intKey 0, r.to_dict)] } := by
      simp only [recordCreateRequest, if_neg hne]
    refine ⟨⟨_, hreq⟩, ?_⟩
    intro resp m hcon
    rw [rc_record_create, hreq] at hcon
    exact legacyMutationResult_ne_validation resp m hcon

/-- C4 witness: a record with no domain reference is rejected with no
request built, and one with a domain id passes validation. -/
theorem record_create_validation_witness :
    (recordCreateRequest
        { lookup := "w", type := DnsRecordType.TXT, data := some "v" } = none ∧
      rc_record_create { lookup := "w", type := DnsRecordType.TXT, data := some "v" }
        ⟨200, "", ⟨"OK", "", []⟩⟩ =
        Except.error
          (ApiError.validation "Either domain_id or domain_name must be provided")) ∧
    (∃ req, recordCreateRequest demoDomainIdRecord = some req) :=
  ⟨⟨((record_create_validation
      { lookup := "w", type := DnsRecordType.TXT, data := some "v" }).1
      (by decide) (by decide)).1,
    ((record_create_validation
      { lookup := "w", type := DnsRecordType.TXT, data := some "v" }).1
      (by decide) (by decide)).2 ⟨200, "", ⟨"OK", "", []⟩⟩⟩,
   ((record_create_validation demoDomainIdRecord).2 (Or.inl (by decide))).1⟩

/-! Hook orchestrators, from `__main__.py`. -/

/-- Python `s.split(".")[0]`: the characters before the first dot (the whole
string when it has no dot), written structurally so it kernel-reduces. -/
def pySplitFirst (s : String) : String :=
  ⟨s.data.takeWhile (fun c => c != '.')⟩

/-- Python `s[n:]` by code points, written structurally. -/
def pyDropChars (s : String) (n : Nat) : String :=
  ⟨s.data.drop n⟩

/-- `_prepare_new_record`: `None` when CERTBOT_DOMAIN is missing or empty
(Python `if not domain:`); CERTBOT_VALIDATION is read without any check and
lands directly in the record's data field. -/
def prepare_new_record (domain validation : Option String) : Option DnsRecord :=
  match domain with
  | none => none
  | some dom =>
    if dom = "" then none
    else
      let record_name := pySplitFirst dom
      let zone_name := pyDropChars dom (record_name.length + 1)
      some { lookup := "_acme-challenge." ++ record_name,
             type := DnsRecordType.TXT, data := validation,
             ttl := some 120, domain_name := some zone_name }

/-- `_find_domain_id`: the id of the first listed domain whose name equals
the record's domain_name (Python `==`, so None equals None). -/
def find_domain_id (domains : List DnsDomain) (record : DnsRecord) : Option Int :=
  match domains.find? (fun d => decide (d.name = record.domain_name)) with
  | some d => some d.id
  | none => none

/-- `_find_record_id`: the id of the first record of the fetched domain
whose lookup and type both match; `None` when no record matches — and also
when the first matching record itself has no id. -/
def find_record_id (dom : DnsDomain) (record : DnsRecord) : Option String :=
  match dom.records.find? (fun r =>
      decide (r.lookup = record.lookup) && decide (r.type = record.type)) with
  | some r => r.id
  | none => none

/-- An observable call made by an orchestrator run: the two reads and the
three mutations. -/
inductive HookCall where
  | domainGetall
  | domainGet (id : Int)
  | recordCreate (r : DnsRecord)
  | recordUpdate (r : DnsRecord)
  | recordDelete (id : String)
  deriving DecidableEq, Repr

/-- `CertbotAuthHook.main`: exit code paired with the calls issued in order.
The client is parameterised by the decoded domain list that domain_getall
would return and the decoded domain that domain_get would return; client
construction (credentials) is assumed to succeed.  The resolved zone id is
guarded by Python truthiness (`if not domain_id:`), so both a missing match
and a matched id of 0 exit 1 after only the domain_getall call. -/
def certbotAuthHookMain (domain validation : Option String)
    (domains : List DnsDomain) (served : DnsDomain) : Int × List HookCall :=
  match prepare_new_record domain validation with
  | none => (1, [])
  | some newRecord =>
    match find_domain_id domains newRecord with
    | none => (1, [HookCall.domainGetall])
    | some did =>
      if did = 0 then (1, [HookCall.domainGetall])
      else
        let rec1 : DnsRecord := { newRecord with domain_id := some did }
        let rid := find_record_id served rec1
        if truthyOptStr rid then
          (0, [HookCall.domainGetall, HookCall.domainGet did,
               HookCall.recordUpdate { rec1 with id := rid }])
        else
          (0, [HookCall.domainGetall, HookCall.domainGet did,
               HookCall.recordCreate rec1])

/-- `CertbotCleanupHook.main`: exit code paired with the calls issued in
order; the resolved zone id is guarded by the same `if not domain_id:`
truthiness check as the auth hook, and a falsy found record id means no
delete call at all. -/
def certbotCleanupHookMain (domain validation : Option String)
    (domains : List DnsDomain) (served : DnsDomain) : Int × List HookCall :=
  match prepare_new_record domain validation with
  | none => (1, [])
  | some newRecord =>
    match find_domain_id domains newRecord with
    | none => (1, [HookCall.domainGetall])
    | some did =>
      if did = 0 then (1, [HookCall.domainGetall])
      else
        let rec1 : DnsRecord := { newRecord with domain_id := some did }
        let rid := find_record_id served rec1
        if truthyOptStr rid then
          (0, [HookCall.domainGetall, HookCall.domainGet did,
               HookCall.recordDelete (rid.getD "")])
        else
          (0, [HookCall.domainGetall, HookCall.domainGet did])

/-- Number of record_create calls in a trace. -/
def countCreates (l : List HookCall) : Nat :=
  l.countP fun c => match c with
    | HookCall.recordCreate _ => true
    | _ => false

/-- Number of record_update calls in a trace. -/
def countUpdates (l : List HookCall) : Nat :=
  l.countP fun c => match c with
    | HookCall.recordUpdate _ => true
    | _ => false

/-- Number of record_delete calls in a trace. -/
def countDeletes (l : List HookCall) : Nat :=
  l.countP fun c => match c with
    | HookCall.recordDelete _ => true
    | _ => false

/-- Domain list returned by domain_getall in the demo scenarios. -/
def demoZoneDomains : List DnsDomain :=
  [{ id := 9, name := some "example.com" }]

/-- Fetched domain whose matching TXT challenge record carries id 77. -/
def demoServedWithId77 : DnsDomain :=
  { id := 9, name := some "example.com",
    records := [{ lookup := "_acme-challenge.foo", type := DnsRecordType.TXT,
                  data := some "old", id := some "77" }] }

/-- Fetched domain whose matching TXT challenge record carries no id. -/
def demoServedNoIdMatch : DnsDomain :=
  { id := 9, name := some "example.com",
    records := [{ lookup := "_acme-challenge.foo", type := DnsRecordType.TXT,
                  data := some "old" }] }

/-- C6: at the failing input — CERTBOT_DOMAIN set, CERTBOT_VALIDATION
missing — the prepared candidate record is still produced, with its data
field unset, and both orchestrators proceed to their first network call
(domain_getall) instead of failing with exit code 1 before any network
call, contradicting their own error message naming both variables. -/
theorem hooks_missing_validation_proceed :
    prepare_new_record (some "foo.example.com") none =
      some { lookup := "_acme-challenge.foo", type := DnsRecordType.TXT,
             data := none, ttl := some 120, domain_name := some "example.com" } ∧
    (certbotAuthHookMain (some "foo.example.com") none demoZoneDomains
        demoServedWithId77).2.head? = some HookCall.domainGetall ∧
    (certbotCleanupHookMain (some "foo.example.com") none demoZoneDomains
        demoServedWithId77).2.head? = some HookCall.domainGetall := by
  decide

/-- C8 (amended): after the zone resolves to a truthy (nonzero) domain id,
the fetched domain's records are scanned in order for the first record whose
lookup and type match the candidate; if that record exists and carries a
non-null non-empty id, the hook performs exactly one record_update carrying
that id and no create; if no record matches — or the first matching record's
id is null or empty — it performs exactly one record_create and no update. -/
theorem auth_hook_create_or_update (domain validation : Option String)
    (rec : DnsRecord) (domains : List DnsDomain) (served : DnsDomain) (did : Int)
    (hprep : prepare_new_record domain validation = some rec)
    (hfind : find_domain_id domains rec = some did) (hne0 : did ≠ 0) :
    (∀ rid : String,
      find_record_id served { rec with domain_id := some did } = some rid →
      rid ≠ "" →
      countUpdates (certbotAuthHookMain domain validation domains served).2 = 1 ∧
      countCreates (certbotAuthHookMain domain validation domains served).2 = 0 ∧
      HookCall.recordUpdate { rec with domain_id := some did, id := some rid } ∈
        (certbotAuthHookMain domain validation domains served).2) ∧
    (truthyOptStr (find_record_id served { rec with domain_id := some did }) = false →
      countCreates (certbotAuthHookMain domain validation domains served).2 = 1 ∧
      countUpdates (certbotAuthHookMain domain validation domains served).2 = 0 ∧
      HookCall.recordCreate { rec with domain_id := some did } ∈
        (certbotAuthHookMain domain validation domains served).2) := by
  constructor
  · intro rid hrid hne
    simp [certbotAuthHookMain, hprep, hfind, hne0, hrid, truthyOptStr, hne,
      countUpdates, countCreates, List.countP_cons, List.countP_nil]
  · intro htr
    simp [certbotAuthHookMain, hprep, hfind, hne0, htr, countUpdates,
      countCreates, List.countP_cons, List.countP_nil]

/-- C8 counterexample: the served domain holds a record matching the
candidate's lookup and type, but that record carries no id, so the hook
performs one create and zero updates — the claim requires exactly one
update and no create whenever a matching record exists. -/
theorem auth_hook_match_without_id_counterexample :
    prepare_new_record (some "foo.example.com") (some "tok") =
      some { lookup := "_acme-challenge.foo", type := DnsRecordType.TXT,
             data := some "tok", ttl := some 120, domain_name := some "example.com" } ∧
    (∃ r ∈ demoServedNoIdMatch.records,
        r.lookup = "_acme-challenge.foo" ∧ r.type = DnsRecordType.TXT) ∧
    countUpdates (certbotAuthHookMain (some "foo.example.com") (some "tok")
        demoZoneDomains demoServedNoIdMatch).2 = 0 ∧
    countCreates (certbotAuthHookMain (some "foo.example.com") (some "tok")
        demoZoneDomains demoServedNoIdMatch).2 = 1 := by
  decide

/-- C8 witness: the spec's update scenario — domain 9 with a matching TXT
record of id 77 — yields exactly one update call carrying id 77 and no
create call. -/
theorem auth_hook_create_or_update_witness :
    countUpdates (certbotAuthHookMain (some "foo.example.com") (some "tok")
        demoZoneDomains demoServedWithId77).2 = 1 ∧
    countCreates (certbotAuthHookMain (some "foo.example.com") (some "tok")
        demoZoneDomains demoServedWithId77).2 = 0 ∧
    HookCall.recordUpdate
      { lookup := "_acme-challenge.foo", type := DnsRecordType.TXT,
        data := some "tok", ttl := some 120, domain_name := some "example.com",
        domain_id := some 9, id := some "77" } ∈
      (certbotAuthHookMain (some "foo.example.com") (some "tok")
        demoZoneDomains demoServedWithId77).2 :=
  (auth_hook_create_or_update (some "foo.example.com") (some "tok")
    { lookup := "_acme-challenge.foo", type := DnsRecordType.TXT,
      data := some "tok", ttl := some 120, domain_name := some "example.com" }
    demoZoneDomains demoServedWithId77 9 (by decide) (by decide) (by decide)).1
    "77" (by decide) (by decide)

/-- C9 (amended): in the cleanup flow, once the zone resolves to a truthy
(nonzero) domain id, when the first record matching the candidate's lookup
and type carries a non-null non-empty id, the hook calls record_delete
exactly once with that id and exits 0; when no record matches — or the
matching record's id is null or empty — it performs zero delete calls and
exits 0. -/
theorem cleanup_hook_delete_or_noop (domain validation : Option String)
    (rec : DnsRecord) (domains : List DnsDomain) (served : DnsDomain) (did : Int)
    (hprep : prepare_new_record domain validation = some rec)
    (hfind : find_domain_id domains rec = some did) (hne0 : did ≠ 0) :
    (∀ rid : String,
      find_record_id served { rec with domain_id := some did } = some rid →
      rid ≠ "" →
      (certbotCleanupHookMain domain validation domains served).1 = 0 ∧
      countDeletes (certbotCleanupHookMain domain validation domains served).2 = 1 ∧
      HookCall.recordDelete rid ∈
        (certbotCleanupHookMain domain validation domains served).2) ∧
    (truthyOptStr (find_record_id served { rec with domain_id := some did }) = false →
      (certbotCleanupHookMain domain validation domains served).1 = 0 ∧
      countDeletes (certbotCleanupHookMain domain validation domains served).2 = 0) := by
  constructor
  · intro rid hrid hne
    simp [certbotCleanupHookMain, hprep, hfind, hne0, hrid, truthyOptStr, hne,
      countDeletes, List.countP_cons, List.countP_nil]
  · intro htr
    simp [certbotCleanupHookMain, hprep, hfind, hne0, htr, countDeletes,
      List.countP_cons, List.countP_nil]

/-- C9 counterexample: the served domain holds a record matching the
candidate's lookup and type, but that record carries no id, so cleanup
performs zero delete calls — the claim requires exactly one delete call
with that record's id whenever a matching record is found. -/
theorem cleanup_hook_match_without_id_counterexample :
    prepare_new_record (some "foo.example.com") (some "tok") =
      some { lookup := "_acme-challenge.foo", type := DnsRecordType.TXT,
             data := some "tok", ttl := some 120, domain_name := some "example.com" } ∧
    (∃ r ∈ demoServedNoIdMatch.records,
        r.lookup = "_acme-challenge.foo" ∧ r.type = DnsRecordType.TXT) ∧
    countDeletes (certbotCleanupHookMain (some "foo.example.com") (some "tok")
        demoZoneDomains demoServedNoIdMatch).2 = 0 := by
  decide

/-- C9 witness: with the matching TXT record of id 77 present, cleanup
issues exactly one delete call carrying id 77 and exits 0; the no-match
half is exercised by the zero-delete exit-0 run against an empty domain. -/
theorem cleanup_hook_delete_or_noop_witness :
    ((certbotCleanupHookMain (some "foo.example.com") (some "tok")
        demoZoneDomains demoServedWithId77).1 = 0 ∧
      countDeletes (certbotCleanupHookMain (some "foo.example.com") (some "tok")
        demoZoneDomains demoServedWithId77).2 = 1 ∧
      HookCall.recordDelete "77" ∈
        (certbotCleanupHookMain (some "foo.example.com") (some "tok")
          demoZoneDomains demoServedWithId77).2) ∧
    ((certbotCleanupHookMain (some "foo.example.com") (some "tok")
        demoZoneDomains { id := 9, name := some "example.com" }).1 = 0 ∧
      countDeletes (certbotCleanupHookMain (some "foo.example.com") (some "tok")
        demoZoneDomains { id := 9, name := some "example.com" }).2 = 0) :=
  ⟨(cleanup_hook_delete_or_noop (some "foo.example.com") (some "tok")
      { lookup := "_acme-challenge.foo", type := DnsRecordType.TXT,
        data := some "tok", ttl := some 120, domain_name := some "example.com" }
      demoZoneDomains demoServedWithId77 9 (by decide) (by decide) (by decide)).1
      "77" (by decide) (by decide),
   (cleanup_hook_delete_or_noop (some "foo.example.com") (some "tok")
      { lookup := "_acme-challenge.foo", type := DnsRecordType.TXT,
        data := some "tok", ttl := some 120, domain_name := some "example.com" }
      demoZoneDomains { id := 9, name := some "example.com" } 9
      (by decide) (by decide) (by decide)).2 (by decide)⟩

end Rackcorp
